import Mathlib

/-!
# LinkifyMe workflow-orchestration core: formal model

A shallow embedding of the LinkifyMe repository's orchestration core.
The frontend (Next.js/TypeScript under `frontend/src`) is embedded from
its source; the Python backend (FastAPI/LangGraph under `backend/app`)
is not shipped in this source tree (only its README-level interface and
sheet/score schemas are), so backend components are modelled from the
specification, each marked `Modelled from the spec:` in its doc comment.
-/

namespace LinkifyMe

/-! ## Sections and scoring weights

Modelled from the spec: the backend Scoring Invoker's fixed 12-section
model and weight table (spec §4.3; README "Scoring System" table:
Experience 20, About 15, Headline 10, Profile Photo 10, Education 10,
Skills 10, Connections 5, Followers 5, Cover Photo 5, Certifications 5,
Verified 3, Premium 2). -/

/-- One of the 12 fixed profile-quality sections. -/
inductive Section : Type
  | experience
  | about
  | headline
  | profilePhoto
  | education
  | skills
  | connections
  | followers
  | coverPhoto
  | certifications
  | verified
  | premium
  deriving DecidableEq, Repr

/-- The canonical 12-section order (weight-table order of the README). -/
def Section.all : List Section :=
  [.experience, .about, .headline, .profilePhoto, .education, .skills,
   .connections, .followers, .coverPhoto, .certifications, .verified, .premium]

/-- Modelled from the spec: the fixed weight of each section (README
"Scoring System" table / spec §4.3). -/
def weight : Section → ℕ
  | .experience => 20
  | .about => 15
  | .headline => 10
  | .profilePhoto => 10
  | .education => 10
  | .skills => 10
  | .connections => 5
  | .followers => 5
  | .coverPhoto => 5
  | .certifications => 5
  | .verified => 3
  | .premium => 2

/-- Sum of all section weights. -/
def weightSum : ℕ := (Section.all.map weight).sum

/-- Modelled from the spec: a score assignment, one 0–10 score per
section, as returned by the external scoring capability after
normalization. -/
def Scores : Type := Section → ℚ

/-- A score assignment is valid when every section score is in [0, 10]. -/
def ValidScores (f : Scores) : Prop := ∀ s : Section, 0 ≤ f s ∧ f s ≤ 10

/-- Modelled from the spec: the un-clamped weighted final score,
`Σ(section_score/10 * section_weight)` (spec §4.3). -/
def rawFinal (f : Scores) : ℚ :=
  (Section.all.map (fun s => f s / 10 * (weight s : ℚ))).sum

/-- Modelled from the spec: `final_score` — the weighted sum rounded to
the nearest integer and clamped to [0, 100] (spec §4.3). -/
def mkFinalScore (f : Scores) : ℤ :=
  min 100 (max 0 (round (rawFinal f)))

/-- One scoring result per Attempt (spec §3 ScoreRecord), keyed by
customer; 12 section scores plus the weighted `final_score`. -/
structure ScoreRecord where
  customer_id : String
  attempt_id : String
  scores : Scores
  final_score : ℤ

/-- Modelled from the spec: the Scoring Invoker's record construction —
the final score is always derived from the section scores by the fixed
weighting policy. -/
def mkScoreRecord (cid aid : String) (f : Scores) : ScoreRecord :=
  { customer_id := cid, attempt_id := aid, scores := f,
    final_score := mkFinalScore f }

theorem weightSum_eq_100 : weightSum = 100 := by decide

theorem rawFinal_nonneg (f : Scores) (hf : ValidScores f) : 0 ≤ rawFinal f := by
  have h1 := hf .experience
  have h2 := hf .about
  have h3 := hf .headline
  have h4 := hf .profilePhoto
  have h5 := hf .education
  have h6 := hf .skills
  have h7 := hf .connections
  have h8 := hf .followers
  have h9 := hf .coverPhoto
  have h10 := hf .certifications
  have h11 := hf .verified
  have h12 := hf .premium
  simp only [rawFinal, Section.all, List.map, List.sum_cons, List.sum_nil, weight]
  push_cast
  linarith [h1.1, h2.1, h3.1, h4.1, h5.1, h6.1, h7.1, h8.1, h9.1, h10.1,
    h11.1, h12.1]

theorem rawFinal_le_100 (f : Scores) (hf : ValidScores f) : rawFinal f ≤ 100 := by
  have h1 := hf .experience
  have h2 := hf .about
  have h3 := hf .headline
  have h4 := hf .profilePhoto
  have h5 := hf .education
  have h6 := hf .skills
  have h7 := hf .connections
  have h8 := hf .followers
  have h9 := hf .coverPhoto
  have h10 := hf .certifications
  have h11 := hf .verified
  have h12 := hf .premium
  simp only [rawFinal, Section.all, List.map, List.sum_cons, List.sum_nil, weight]
  push_cast
  linarith [h1.2, h2.2, h3.2, h4.2, h5.2, h6.2, h7.2, h8.2, h9.2, h10.2,
    h11.2, h12.2]

theorem round_rawFinal_nonneg (f : Scores) (hf : ValidScores f) :
    0 ≤ round (rawFinal f) := by
  have h := rawFinal_nonneg f hf
  rw [round_eq]
  have : (0 : ℚ) ≤ rawFinal f + 1 / 2 := by linarith
  exact_mod_cast Int.le_floor.2 (by exact_mod_cast this)

theorem round_rawFinal_le_100 (f : Scores) (hf : ValidScores f) :
    round (rawFinal f) ≤ 100 := by
  have h := rawFinal_le_100 f hf
  rw [round_eq]
  have : rawFinal f + 1 / 2 < (101 : ℚ) := by linarith
  have hlt : (⌊rawFinal f + 1 / 2⌋ : ℤ) < 101 :=
    Int.floor_lt.2 (by exact_mod_cast this)
  omega

theorem mkFinalScore_eq_round (f : Scores) (hf : ValidScores f) :
    mkFinalScore f = round (rawFinal f) := by
  have h0 := round_rawFinal_nonneg f hf
  have h100 := round_rawFinal_le_100 f hf
  unfold mkFinalScore
  omega

/-- Claim C1: for every valid ScoreRecord, `final_score` equals the sum
over the 12 sections of `section_score/10 * section_weight`, rounded to
the nearest integer and clamped to [0,100]; the weights are the fixed
constants Experience 20, About 15, Headline 10, Profile Photo 10,
Education 10, Skills 10, Connections 5, Followers 5, Cover Photo 5,
Certifications 5, Verified 3, Premium 2, and they sum to exactly 100
(so for valid scores the clamp never changes the rounded value). -/
theorem final_score_weighted_sum :
    weightSum = 100 ∧
      Section.all.map weight = [20, 15, 10, 10, 10, 10, 5, 5, 5, 5, 3, 2] ∧
      ∀ (cid aid : String) (f : Scores), ValidScores f →
        (mkScoreRecord cid aid f).final_score
            = min 100 (max 0 (round (rawFinal f))) ∧
          (mkScoreRecord cid aid f).final_score = round (rawFinal f) := by
  refine ⟨weightSum_eq_100, by decide, ?_⟩
  intro cid aid f hf
  exact ⟨rfl, mkFinalScore_eq_round f hf⟩

/-- Concrete instance of `final_score_weighted_sum`: the all-sevens
score assignment is valid and yields `final_score = round(70) = 70`. -/
theorem final_score_weighted_sum_witness :
    (mkScoreRecord "LM-00001" "A-1" (fun _ => 7)).final_score
        = round (rawFinal (fun _ => 7)) ∧
      (mkScoreRecord "LM-00001" "A-1" (fun _ => 7)).final_score = 70 := by
  have hv : ValidScores (fun _ => 7) := fun s => by norm_num
  have h := (final_score_weighted_sum.2.2 "LM-00001" "A-1" (fun _ => 7) hv).2
  have hraw : rawFinal (fun _ => 7) = ((70 : ℤ) : ℚ) := by
    norm_num [rawFinal, Section.all, weight]
  refine ⟨h, ?_⟩
  rw [h, hraw, round_intCast]

/-! ## Workflow State Machine

Modelled from the spec: the backend LangGraph workflow (README
`intake → validate → allocate → payment → scrape → poll → fetch → score →
write`; spec §4.1 states and transition graph). The frontend loader's
`TERMINAL_STATES` list confirms the terminal vocabulary. -/

/-- Pipeline state of an Attempt (`current_step`), spec §4.1. -/
inductive Step : Type
  | intake
  | validated
  | allocated
  | payment_pending
  | payment_confirmed
  | scraping
  | scraping_complete
  | scoring
  | complete
  | failed
  | invalid_url
  | not_found
  deriving DecidableEq, Repr, Fintype

/-- Terminal states: no further transition occurs (spec §4.1). -/
def Step.isTerminal : Step → Bool
  | .complete | .failed | .invalid_url | .not_found => true
  | _ => false

/-- Position of a state along the required linear order (spec §4.1);
terminal failure variants sit outside the chain. -/
def Step.idx : Step → ℕ
  | .intake => 0
  | .validated => 1
  | .allocated => 2
  | .payment_pending => 3
  | .payment_confirmed => 4
  | .scraping => 5
  | .scraping_complete => 6
  | .scoring => 7
  | .complete => 8
  | .failed => 9
  | .invalid_url => 10
  | .not_found => 11

/-- The §4.1 successor of each non-terminal chain state. -/
def Step.next : Step → Step
  | .intake => .validated
  | .validated => .allocated
  | .allocated => .payment_pending
  | .payment_pending => .payment_confirmed
  | .payment_confirmed => .scraping
  | .scraping => .scraping_complete
  | .scraping_complete => .scoring
  | .scoring => .complete
  | s => s

/-- Events driving a workflow transition: the step succeeded, the step
hit an unrecoverable error, the URL failed personal-profile validation,
or the scrape found no such profile. -/
inductive WfEvent : Type
  | stepOk
  | stepError
  | urlInvalid
  | profileNotFound
  deriving DecidableEq, Repr, Fintype

/-- Modelled from the spec: the workflow's transition function (spec
§4.1). A terminal state ignores every event; a successful step advances
to the §4.1 successor; an unrecoverable error moves any non-terminal
state to `failed`; URL validation and profile lookup can immediately
fail only during `intake`/`validated` (elsewhere those events are
ordinary unrecoverable errors). -/
def advance (s : Step) (e : WfEvent) : Step :=
  if s.isTerminal then s
  else
    match e with
    | .stepOk => s.next
    | .stepError => .failed
    | .urlInvalid => if s = .intake ∨ s = .validated then .invalid_url else .failed
    | .profileNotFound =>
        if s = .intake ∨ s = .validated then .not_found else .failed

/-- A transition `s → t` is a legal §4.1 edge: taken from a non-terminal
state, and either the immediate chain successor, or a direct move to
`failed`, or an immediate-failure variant from `intake`/`validated`. -/
def LegalEdge (s t : Step) : Prop :=
  s.isTerminal = false ∧
    (t = s.next ∧ t.idx = s.idx + 1 ∨
      t = .failed ∨
      (t = .invalid_url ∨ t = .not_found) ∧ (s = .intake ∨ s = .validated))

instance (s t : Step) : Decidable (LegalEdge s t) := by
  unfold LegalEdge
  exact inferInstance

/-! ## Payment webhook

Modelled from the spec: the inbound payment webhook event
`{attempt_id, status, provider_ref}` (spec §6) consumed by the Workflow
State Machine to unblock the payment gate; applied idempotently under
redelivery. The backend exposes it at `POST /api/payment/webhook`. -/

/-- Payment status of an Attempt / payment event (spec §3). -/
inductive PayStatus : Type
  | pending
  | succeeded
  | failed
  deriving DecidableEq, Repr

/-- An Attempt as owned by the backend Workflow State Machine
(spec §3): identity, pipeline position, payment status, progress and
error message. -/
structure Attempt where
  attempt_id : String
  customer_id : String
  step : Step
  payment_status : Option PayStatus
  progress_percent : ℕ
  error_message : Option String
  deriving DecidableEq, Repr

/-- An inbound payment webhook event (spec §6). -/
structure WebhookEvent where
  attempt_id : String
  status : PayStatus
  provider_ref : String
  deriving DecidableEq, Repr

/-- Modelled from the spec: consuming one payment webhook event. An
event for a different attempt is ignored; an event whose status has
already been recorded is a redelivery and is ignored (idempotence,
spec §6); otherwise the payment status is recorded and, on `succeeded`
while the attempt is waiting at the payment gate, the attempt advances
to `payment_confirmed`. -/
def applyWebhook (e : WebhookEvent) (a : Attempt) : Attempt :=
  if e.attempt_id ≠ a.attempt_id then a
  else if a.payment_status = some e.status then a
  else
    { a with
      payment_status := some e.status
      step :=
        if e.status = .succeeded ∧ a.step = .payment_pending then
          .payment_confirmed
        else a.step }

/-- Claim C4: the workflow's `current_step` only ever advances along the
fixed §4.1 order or moves directly to the terminal `failed` state from a
non-terminal state; `invalid_url` and `not_found` are reachable only
from `intake`/`validated`; no transition skips a required predecessor
step, and no transition leaves a terminal state. -/
theorem advance_respects_transition_graph :
    (∀ (s : Step) (e : WfEvent), s.isTerminal = true → advance s e = s) ∧
      ∀ (s : Step) (e : WfEvent), advance s e ≠ s → LegalEdge s (advance s e) := by
  constructor
  · decide
  · decide

/-- Concrete instance of `advance_respects_transition_graph`: the
terminal `complete` state ignores events, and the `intake → validated`
transition is a legal edge. -/
theorem advance_respects_transition_graph_witness :
    advance .complete .stepOk = .complete ∧
      LegalEdge .intake (advance .intake .stepOk) :=
  ⟨advance_respects_transition_graph.1 .complete .stepOk rfl,
   advance_respects_transition_graph.2 .intake .stepOk (by decide)⟩

/-- Claim C5: redelivering the same payment webhook event
`{attempt_id, status, provider_ref}` is a no-op — applying the event a
second time leaves the Attempt (payment_status, current_step and all
other fields) exactly as after the first delivery. -/
theorem applyWebhook_idempotent (e : WebhookEvent) (a : Attempt) :
    applyWebhook e (applyWebhook e a) = applyWebhook e a := by
  unfold applyWebhook
  by_cases h1 : e.attempt_id = a.attempt_id
  · by_cases h2 : a.payment_status = some e.status
    · simp [h1, h2]
    · simp [h1, h2]
  · simp [h1]

/-! ## Scoring Invoker and Persistence Store

Modelled from the spec: the backend Scoring Invoker (spec §4.3) calls
the external scoring capability
`Score(profileSnapshot, targetAudience) → {section_scores[12], ...}`
and normalizes its output into the fixed 12-section model; a missing
section or an out-of-range score fails with `ScoringIncompleteError`
and nothing is persisted. The Persistence Store (spec §4.5, Google
Sheets "Profile Scoring" worksheet) is modelled as the list of
persisted ScoreRecords. -/

/-- The error taxonomy of spec §7. -/
inductive WfError : Type
  | invalidInput
  | paymentError
  | scrapeFailed
  | scrapeTimeout
  | scoringIncomplete
  | attemptNotComparable
  deriving DecidableEq, Repr

/-- Display name of a section (README weight-table order vocabulary). -/
def sectionName : Section → String
  | .experience => "Experience"
  | .about => "About"
  | .headline => "Headline"
  | .profilePhoto => "Profile Photo"
  | .education => "Education"
  | .skills => "Skills"
  | .connections => "Connections"
  | .followers => "Followers"
  | .coverPhoto => "Cover Photo"
  | .certifications => "Certifications"
  | .verified => "Verified"
  | .premium => "Premium"

/-- Raw output of the external scoring capability: per section, either a
score or nothing (the capability may omit sections). -/
def ScoringResponse : Type := Section → Option ℚ

/-- Modelled from the spec: the normalization check — every one of the
12 sections must be present with a score inside [0, 10]. -/
def responseComplete (resp : ScoringResponse) : Bool :=
  Section.all.all fun s =>
    match resp s with
    | some q => decide (0 ≤ q) && decide (q ≤ 10)
    | none => false

/-- Modelled from the spec: the Scoring Invoker — normalize the external
response into a ScoreRecord, or fail with `ScoringIncompleteError` when
a section is omitted or out of range (spec §4.3). -/
def invokeScoring (cid aid : String) (resp : ScoringResponse) :
    Except WfError ScoreRecord :=
  if responseComplete resp then
    .ok (mkScoreRecord cid aid fun s => (resp s).getD 0)
  else
    .error .scoringIncomplete

/-- The persisted scoring records (Persistence Store projection used by
the Scoring Invoker and the Comparison Engine). -/
def Store : Type := List ScoreRecord

/-- Modelled from the spec: the workflow's scoring stage — run the
Scoring Invoker on the external response; on success persist the
ScoreRecord and advance the attempt, on `ScoringIncompleteError` leave
the store untouched and fail the attempt with a captured error message
(spec §4.1/§4.3, §7). -/
def runScoring (store : Store) (a : Attempt) (resp : ScoringResponse) :
    Store × Attempt :=
  match invokeScoring a.customer_id a.attempt_id resp with
  | .ok r => (r :: store, { a with step := advance a.step .stepOk })
  | .error _ =>
      (store,
       { a with
         step := advance a.step .stepError
         error_message := some "ScoringIncompleteError" })

theorem mem_section_all (s : Section) : s ∈ Section.all := by
  cases s <;> simp [Section.all]

theorem responseComplete_false_of_bad (resp : ScoringResponse)
    (hbad : (∃ s, resp s = none) ∨
      ∃ s q, resp s = some q ∧ (q < 0 ∨ 10 < q)) :
    responseComplete resp = false := by
  rw [Bool.eq_false_iff]
  intro hall
  rw [responseComplete, List.all_eq_true] at hall
  rcases hbad with ⟨s, hs⟩ | ⟨s, q, hsq, hq⟩
  · have h := hall s (mem_section_all s)
    rw [hs] at h
    simp at h
  · have h := hall s (mem_section_all s)
    rw [hsq] at h
    simp only [Bool.and_eq_true, decide_eq_true_eq] at h
    rcases hq with hq | hq
    · linarith [h.1]
    · linarith [h.2]

/-- Claim C6: if the external scoring capability omits any of the 12
sections or returns a score outside [0, 10], the Scoring Invoker fails
with `ScoringIncompleteError`, the store of persisted ScoreRecords is
unchanged, and the Attempt transitions to `failed`. -/
theorem scoring_incomplete_not_persisted :
    ∀ (store : Store) (a : Attempt) (resp : ScoringResponse),
      a.step = .scoring →
      ((∃ s, resp s = none) ∨ ∃ s q, resp s = some q ∧ (q < 0 ∨ 10 < q)) →
      invokeScoring a.customer_id a.attempt_id resp
          = .error .scoringIncomplete ∧
        runScoring store a resp =
          (store,
           { a with
             step := .failed
             error_message := some "ScoringIncompleteError" }) := by
  intro store a resp hstep hbad
  have hrc := responseComplete_false_of_bad resp hbad
  constructor
  · unfold invokeScoring
    rw [hrc]
    rfl
  · unfold runScoring invokeScoring
    rw [hrc]
    simp [hstep, advance, Step.isTerminal]

/-- Concrete instance of `scoring_incomplete_not_persisted`: a response
omitting every section fails the scoring attempt and persists nothing. -/
theorem scoring_incomplete_not_persisted_witness :
    runScoring []
        { attempt_id := "A-2", customer_id := "LM-00001", step := .scoring,
          payment_status := some .succeeded, progress_percent := 80,
          error_message := none }
        (fun _ => none) =
      ([],
       { attempt_id := "A-2", customer_id := "LM-00001", step := .failed,
         payment_status := some .succeeded, progress_percent := 80,
         error_message := some "ScoringIncompleteError" }) :=
  (scoring_incomplete_not_persisted []
      { attempt_id := "A-2", customer_id := "LM-00001", step := .scoring,
        payment_status := some .succeeded, progress_percent := 80,
        error_message := none }
      (fun _ => none) rfl (Or.inl ⟨.experience, rfl⟩)).2

/-- The named SectionScore entries of a ScoreRecord, in canonical order:
(section name, score, declared max). Every section's declared max is 10
(README: all sections scored on a 10-point scale). -/
def ScoreRecord.entries (r : ScoreRecord) : List (String × ℚ × ℚ) :=
  Section.all.map fun s => (sectionName s, r.scores s, 10)

/-! ## Frontend report pages

Embedded from `frontend/src/app/(dashboard)/report/page.tsx` and the
report-page component bundled in
`frontend/src/app/(dashboard)/compare/page.tsx`: the `defaultReport`
fallback values those pages expose while loading or when the backend is
unreachable. -/

/-- A section entry of a frontend report (`Section` interface of
`report/page.tsx`). -/
structure RSection where
  id : String
  title : String
  score : ℚ
  max_score : ℚ
  status : String
  analysis : Option String := none
  current_status : Option String := none
  ai_rewrite : Option String := none
  tags : List String := []
  deriving DecidableEq, Repr

/-- The `profile` object of a frontend report. -/
structure FrontProfile where
  name : String
  initial : String
  url : String
  deriving DecidableEq, Repr

/-- A frontend report (`ReportData` interface of `report/page.tsx`). -/
structure FrontReport where
  customer_id : String
  profile : FrontProfile
  overall_score : ℚ
  grade_label : String
  executive_summary : String
  sections : List RSection
  top_priorities : List String
  deriving DecidableEq, Repr

/-- `defaultReport` of `report/page.tsx`: the fallback data with all 12
sections shown while loading or when no customer_id is present. -/
def reportPageDefaultReport : FrontReport :=
  { customer_id := "LM-00000"
    profile := { name := "Loading Profile...", initial := "?", url := "" }
    overall_score := 0
    grade_label := "LOADING"
    executive_summary :=
      "Analyzing your LinkedIn profile. Please wait for the complete report to load..."
    sections :=
      [{ id := "headline", title := "Headline", score := 0, max_score := 10,
         status := "needs_improvement",
         analysis := some "Loading headline analysis..." },
       { id := "connections", title := "Connections", score := 0,
         max_score := 10, status := "needs_improvement",
         analysis := some "Loading connections analysis..." },
       { id := "followers", title := "Followers", score := 0, max_score := 10,
         status := "needs_improvement",
         analysis := some "Loading followers analysis..." },
       { id := "about", title := "About", score := 0, max_score := 10,
         status := "needs_improvement",
         analysis := some "Loading about section analysis..." },
       { id := "profile-photo", title := "Profile Photo", score := 0,
         max_score := 10, status := "needs_improvement",
         analysis := some "Loading profile photo analysis..." },
       { id := "cover-photo", title := "Cover Photo", score := 0,
         max_score := 10, status := "needs_improvement",
         analysis := some "Loading cover photo analysis..." },
       { id := "experience", title := "Experience", score := 0,
         max_score := 10, status := "needs_improvement",
         analysis := some "Loading experience analysis..." },
       { id := "education", title := "Education", score := 0, max_score := 10,
         status := "needs_improvement",
         analysis := some "Loading education analysis..." },
       { id := "skills", title := "Skills", score := 0, max_score := 10,
         status := "needs_improvement",
         analysis := some "Loading skills analysis..." },
       { id := "certifications", title := "Licenses & Certifications",
         score := 0, max_score := 10, status := "needs_improvement",
         analysis := some "Loading certifications analysis..." },
       { id := "verified", title := "Is Verified", score := 0, max_score := 10,
         status := "needs_improvement",
         analysis := some "Loading verification status..." },
       { id := "premium", title := "Is Premium", score := 0, max_score := 10,
         status := "needs_improvement",
         analysis := some "Loading premium status..." }]
    top_priorities := ["Loading...", "Please wait...", "Analyzing profile..."] }

/-- `defaultReport` of the report-page component bundled in
`compare/page.tsx`: a 5-section demo fallback. -/
def comparePageDefaultReport : FrontReport :=
  { customer_id := "LM-00001"
    profile := { name := "Demo User", initial := "D",
                 url := "https://www.linkedin.com/in/demo-user" }
    overall_score := 52
    grade_label := "AVERAGE"
    executive_summary :=
      "Overall, your profile has a solid foundation but requires significant improvements in the About, Experience, and Skills sections to make a stronger impact. Focus on enhancing these areas to better showcase your qualifications and attract opportunities in your field."
    sections :=
      [{ id := "profile-photo", title := "Profile Photo", score := 8,
         max_score := 10, status := "optimized",
         analysis :=
           some "Great job! Your profile photo meets all professional standards." },
       { id := "headline", title := "Headline", score := 9, max_score := 15,
         status := "needs_improvement",
         current_status :=
           some "Student @ IIT Delhi | Co-Founder — RentBasket | Agentix",
         analysis :=
           some "Your headline effectively communicates your current role but could benefit from additional keywords.",
         ai_rewrite :=
           some "Include role, specialization, and unique value with searchable keywords.",
         tags := ["Keywords", "Value Proposition", "Clarity"] },
       { id := "connections", title := "Connections", score := 5,
         max_score := 5, status := "optimized",
         current_status := some "500+ connections",
         analysis :=
           some "Having 500+ connections shows you are engaged with your professional community." },
       { id := "about", title := "About", score := 6, max_score := 20,
         status := "critical",
         current_status := some "Your about section is too brief.",
         analysis :=
           some "Your About section is crucial for telling your professional story. Consider adding a compelling narrative.",
         ai_rewrite :=
           some "Start with a hook that captures attention, then describe your expertise.",
         tags := ["Storytelling", "Keywords", "Call to Action"] },
       { id := "experience", title := "Experience", score := 14,
         max_score := 20, status := "needs_improvement",
         analysis :=
           some "Your experience section has good content but could use more quantifiable achievements." }]
    top_priorities := ["Improve About", "Optimize Headline", "Add Skills"] }

/-- Claim C2: every persisted ScoreRecord (any record the Scoring
Invoker accepts for persistence) carries exactly 12 named SectionScore
entries, each with declared max 10 and score within [0, 10]; and the
report-shaped values the frontend exposes as fallbacks (the
`defaultReport` of `report/page.tsx` — 12 sections — and of the
report component bundled in `compare/page.tsx`) never show a section
whose score exceeds its declared max. -/
theorem persisted_record_sections_in_range :
    (∀ (cid aid : String) (resp : ScoringResponse) (r : ScoreRecord),
        invokeScoring cid aid resp = .ok r →
          r.entries.length = 12 ∧
            ∀ e ∈ r.entries, e.2.2 = 10 ∧ 0 ≤ e.2.1 ∧ e.2.1 ≤ e.2.2) ∧
      reportPageDefaultReport.sections.length = 12 ∧
      (reportPageDefaultReport.sections.all fun s =>
          decide (s.max_score = 10) && decide (0 ≤ s.score) &&
            decide (s.score ≤ s.max_score)) = true ∧
      (comparePageDefaultReport.sections.all fun s =>
          decide (s.score ≤ s.max_score)) = true := by
  refine ⟨?_, by decide, by decide, by decide⟩
  intro cid aid resp r hok
  rw [invokeScoring] at hok
  split at hok
  case isTrue h =>
    cases hok
    refine ⟨by simp [ScoreRecord.entries, Section.all], ?_⟩
    intro e he
    rw [ScoreRecord.entries, List.mem_map] at he
    obtain ⟨s, _, rfl⟩ := he
    rw [responseComplete, List.all_eq_true] at h
    have hq := h s (mem_section_all s)
    refine ⟨rfl, ?_, ?_⟩ <;>
      · cases hr : resp s with
        | none => rw [hr] at hq; simp at hq
        | some q =>
          rw [hr] at hq
          simp only [Bool.and_eq_true, decide_eq_true_eq] at hq
          simp only [mkScoreRecord, hr, Option.getD_some]
          first
          | exact hq.1
          | linarith [hq.2]
  case isFalse h => simp at hok

/-- The complete all-sevens scoring response. -/
def constSevenResponse : ScoringResponse := fun _ => some 7

/-- Concrete instance of `persisted_record_sections_in_range`: the
record built from the all-sevens response has exactly 12 entries. -/
theorem persisted_record_sections_in_range_witness :
    (invokeScoring "LM-00001" "A-1" constSevenResponse =
        .ok (mkScoreRecord "LM-00001" "A-1"
          fun s => (constSevenResponse s).getD 0)) ∧
      (mkScoreRecord "LM-00001" "A-1"
          fun s => (constSevenResponse s).getD 0).entries.length = 12 := by
  have hok : invokeScoring "LM-00001" "A-1" constSevenResponse =
      .ok (mkScoreRecord "LM-00001" "A-1"
        fun s => (constSevenResponse s).getD 0) := by
    rw [invokeScoring, if_pos (by decide)]
  exact ⟨hok,
    (persisted_record_sections_in_range.1 "LM-00001" "A-1"
        constSevenResponse _ hok).1⟩

/-! ## Comparison Engine

Modelled from the spec: `Compare(currentAttemptID, previousAttemptID)`
(spec §4.6) over two persisted ScoreRecords of the same customer; the
response shape follows the frontend's `ScoreComparison` /
`ComparisonResponse` interfaces in `frontend/src/lib/api.ts`. -/

/-- The `change_direction` vocabulary of `api.ts` / spec §4.6. -/
inductive ChangeDirection : Type
  | improved
  | declined
  | unchanged
  deriving DecidableEq, Repr

/-- One per-section comparison row (`ScoreComparison` in `api.ts`). -/
structure ScoreComparison where
  «section» : String
  current_score : ℚ
  previous_score : ℚ
  delta : ℚ
  change_direction : ChangeDirection
  deriving DecidableEq, Repr

/-- The comparison result (`ComparisonResponse` in `api.ts`, core
fields). -/
structure ComparisonResponse where
  overall_delta : ℤ
  sections : List ScoreComparison
  deriving DecidableEq, Repr

/-- Modelled from the spec: classify a delta as `improved` (> 0),
`declined` (< 0) or `unchanged` (= 0) (spec §4.6). -/
def classifyDelta (d : ℚ) : ChangeDirection :=
  if 0 < d then .improved else if d < 0 then .declined else .unchanged

/-- Modelled from the spec: section-by-section diff of two ScoreRecords
in the canonical 12-section order, with
`overall_delta = current.final_score - previous.final_score`
(spec §4.6). -/
def compareRecords (cur prev : ScoreRecord) : ComparisonResponse :=
  { overall_delta := cur.final_score - prev.final_score
    sections := Section.all.map fun s =>
      { «section» := sectionName s
        current_score := cur.scores s
        previous_score := prev.scores s
        delta := cur.scores s - prev.scores s
        change_direction := classifyDelta (cur.scores s - prev.scores s) } }

/-- Point lookup of a persisted ScoreRecord by attempt id (spec §4.5
access pattern). -/
def findRecord (store : Store) (aid : String) : Option ScoreRecord :=
  store.find? fun r => r.attempt_id == aid

/-- Modelled from the spec: the exposed `Compare` operation — requires
both attempts to have a persisted ScoreRecord and to belong to the same
customer, failing with `AttemptNotComparableError` otherwise
(spec §4.6). -/
def compareAttempts (store : Store) (curId prevId : String) :
    Except WfError ComparisonResponse :=
  match findRecord store curId, findRecord store prevId with
  | some cur, some prev =>
      if cur.customer_id = prev.customer_id then .ok (compareRecords cur prev)
      else .error .attemptNotComparable
  | _, _ => .error .attemptNotComparable

/-- Claim C3: for two comparable attempts (same customer, both with a
persisted ScoreRecord), `Compare` returns one row per section in the
fixed canonical 12-section order, each with
`delta = current.score - previous.score` classified as improved /
declined / unchanged by the sign of the delta, and
`overall_delta = current.final_score - previous.final_score`. -/
theorem compare_sections_delta (store : Store) (curId prevId : String)
    (cur prev : ScoreRecord)
    (hc : findRecord store curId = some cur)
    (hp : findRecord store prevId = some prev)
    (hcust : cur.customer_id = prev.customer_id) :
    compareAttempts store curId prevId = .ok (compareRecords cur prev) ∧
      (compareRecords cur prev).overall_delta
          = cur.final_score - prev.final_score ∧
      (compareRecords cur prev).sections.map (fun c => c.«section»)
          = Section.all.map sectionName ∧
      ∀ c ∈ (compareRecords cur prev).sections,
        c.delta = c.current_score - c.previous_score ∧
          (0 < c.delta → c.change_direction = .improved) ∧
          (c.delta < 0 → c.change_direction = .declined) ∧
          (c.delta = 0 → c.change_direction = .unchanged) := by
  refine ⟨?_, rfl, ?_, ?_⟩
  · rw [compareAttempts, hc, hp]
    simp [hcust]
  · simp [compareRecords, List.map_map]
  · intro c hmem
    rw [compareRecords, List.mem_map] at hmem
    obtain ⟨s, _, rfl⟩ := hmem
    refine ⟨rfl, ?_, ?_, ?_⟩ <;> intro hd <;>
      simp only [classifyDelta] <;> simp only [] at hd
    · rw [if_pos hd]
    · rw [if_neg (by linarith), if_pos hd]
    · rw [if_neg (by simp [hd]), if_neg (by simp [hd])]

/-- Two persisted records of customer LM-00001, attempts A-2 and A-1. -/
def recA2 : ScoreRecord := mkScoreRecord "LM-00001" "A-2" fun _ => 8

/-- See `recA2`. -/
def recA1 : ScoreRecord := mkScoreRecord "LM-00001" "A-1" fun _ => 6

/-- A store holding the two comparable attempts of customer LM-00001. -/
def comparisonStore : Store := [recA2, recA1]

/-- Concrete instance of `compare_sections_delta`: comparing attempts
A-2 and A-1 of customer LM-00001 succeeds with the canonical section
ordering. -/
theorem compare_sections_delta_witness :
    compareAttempts comparisonStore "A-2" "A-1"
        = .ok (compareRecords recA2 recA1) ∧
      (compareRecords recA2 recA1).sections.map (fun c => c.«section»)
        = Section.all.map sectionName :=
  ⟨(compare_sections_delta comparisonStore "A-2" "A-1" recA2 recA1 rfl rfl
      rfl).1,
   (compare_sections_delta comparisonStore "A-2" "A-1" recA2 recA1 rfl rfl
      rfl).2.2.1⟩

/-! ## Identifier Allocator

Modelled from the spec: `counter.py` — a durable counter issuing
strictly increasing, never-reused customer identifiers formatted like
`LM-00001` (spec §4.4). The allocator state is exactly the durable
counter value, so a process restart resumes from the persisted state. -/

/-- The decimal digit character for a digit value below 10. -/
def digitChar : ℕ → Char
  | 0 => '0'
  | 1 => '1'
  | 2 => '2'
  | 3 => '3'
  | 4 => '4'
  | 5 => '5'
  | 6 => '6'
  | 7 => '7'
  | 8 => '8'
  | 9 => '9'
  | _ => '0'

/-- Numeric value of a decimal digit character. -/
def chVal (c : Char) : ℕ := c.toNat - 48

/-- Big-endian decimal digit characters of a natural number. -/
def natDigitsStr (n : ℕ) : List Char := (Nat.digits 10 n).reverse.map digitChar

/-- The digit characters left-padded with zeros to width 5 (`LM-%05d`
formatting of the customer counter). -/
def pad5 (n : ℕ) : List Char :=
  List.replicate (5 - (natDigitsStr n).length) '0' ++ natDigitsStr n

/-- Modelled from the spec: format of an issued customer identifier,
e.g. `LM-00001` (spec §4.4). -/
def formatCustomerId (n : ℕ) : String := "LM-" ++ String.mk (pad5 n)

/-- Left fold turning digit characters back into a number. -/
def parseDigits (acc : ℕ) (cs : List Char) : ℕ :=
  cs.foldl (fun a c => 10 * a + chVal c) acc

/-- Inverse of `formatCustomerId`: strip the `LM-` prefix and read the
decimal digits. -/
def parseCustomerId (s : String) : ℕ := parseDigits 0 (s.data.drop 3)

theorem chVal_digitChar (d : ℕ) (hd : d < 10) : chVal (digitChar d) = d := by
  interval_cases d <;> rfl

theorem parseDigits_natDigitsStr (n : ℕ) :
    ∀ acc : ℕ,
      parseDigits acc (natDigitsStr n)
        = acc * 10 ^ (Nat.digits 10 n).length + n := by
  induction n using Nat.strong_induction_on with
  | _ n ih =>
    intro acc
    rcases Nat.eq_zero_or_pos n with h0 | hpos
    · subst h0
      simp [natDigitsStr, parseDigits]
    · have hdig := Nat.digits_def' (by norm_num : (1 : ℕ) < 10) hpos
      have hstr : natDigitsStr n
          = natDigitsStr (n / 10) ++ [digitChar (n % 10)] := by
        rw [natDigitsStr, hdig]
        simp [natDigitsStr]
      have hdiv : n / 10 < n := Nat.div_lt_self hpos (by norm_num)
      have hmod : n % 10 < 10 := Nat.mod_lt n (by norm_num)
      rw [hstr, parseDigits, List.foldl_append]
      have hih := ih (n / 10) hdiv acc
      rw [parseDigits] at hih
      rw [hih]
      simp only [List.foldl_cons, List.foldl_nil, chVal_digitChar _ hmod]
      rw [hdig, List.length_cons]
      calc 10 * (acc * 10 ^ (Nat.digits 10 (n / 10)).length + n / 10) + n % 10
          = acc * (10 ^ (Nat.digits 10 (n / 10)).length * 10)
              + (10 * (n / 10) + n % 10) := by ring
        _ = acc * 10 ^ ((Nat.digits 10 (n / 10)).length + 1) + n := by
            rw [pow_succ, Nat.div_add_mod]

theorem parseDigits_zeros (k : ℕ) :
    parseDigits 0 (List.replicate k '0') = 0 := by
  induction k with
  | zero => rfl
  | succ k ih =>
    rw [List.replicate_succ]
    show parseDigits (10 * 0 + chVal '0') (List.replicate k '0') = 0
    norm_num [chVal]
    exact ih

theorem parse_formatCustomerId (n : ℕ) :
    parseCustomerId (formatCustomerId n) = n := by
  have hdrop :
      (("LM-" ++ String.mk (pad5 n)).data).drop 3 = pad5 n := rfl
  rw [parseCustomerId, formatCustomerId, hdrop, pad5, parseDigits,
    List.foldl_append]
  have hz := parseDigits_zeros (5 - (natDigitsStr n).length)
  rw [parseDigits] at hz
  rw [hz]
  have h := parseDigits_natDigitsStr n 0
  rw [parseDigits] at h
  rw [h]
  ring

theorem formatCustomerId_injective (a b : ℕ)
    (h : formatCustomerId a = formatCustomerId b) : a = b := by
  have := congrArg parseCustomerId h
  rwa [parse_formatCustomerId, parse_formatCustomerId] at this

/-- The allocator's durable state: the customer counter (spec §4.4). -/
structure AllocatorState where
  counter : ℕ
  deriving DecidableEq, Repr

/-- Modelled from the spec: `Next()` — atomically increment the durable
counter and issue the formatted identifier of the new value
(spec §4.4). -/
def allocNext (st : AllocatorState) : AllocatorState × String :=
  ({ counter := st.counter + 1 }, formatCustomerId (st.counter + 1))

/-- The identifiers issued by `n` consecutive (linearized) `Next()`
calls starting from state `st`. -/
def issuedIds (st : AllocatorState) : ℕ → List String
  | 0 => []
  | n + 1 => (allocNext st).2 :: issuedIds (allocNext st).1 n

theorem mem_issuedIds (n : ℕ) :
    ∀ (st : AllocatorState) (x : String), x ∈ issuedIds st n →
      ∃ m : ℕ, st.counter < m ∧ m ≤ st.counter + n ∧
        x = formatCustomerId m := by
  induction n with
  | zero => intro st x hx; simp [issuedIds] at hx
  | succ n ih =>
    intro st x hx
    rw [issuedIds, List.mem_cons] at hx
    rcases hx with hx | hx
    · exact ⟨st.counter + 1, Nat.lt_succ_self _, by omega, hx⟩
    · obtain ⟨m, hm1, hm2, hm3⟩ := ih (allocNext st).1 x hx
      exact ⟨m, by simp [allocNext] at hm1 ⊢; omega,
        by simp [allocNext] at hm2 ⊢; omega, hm3⟩

theorem issuedIds_nodup (n : ℕ) :
    ∀ st : AllocatorState, (issuedIds st n).Nodup := by
  induction n with
  | zero => intro st; simp [issuedIds]
  | succ n ih =>
    intro st
    rw [issuedIds, List.nodup_cons]
    refine ⟨?_, ih _⟩
    intro hmem
    obtain ⟨m, hm1, _, hm3⟩ := mem_issuedIds n (allocNext st).1 _ hmem
    simp only [allocNext] at hm1 hm3
    have := formatCustomerId_injective _ _ hm3
    omega

theorem issuedIds_length (n : ℕ) :
    ∀ st : AllocatorState, (issuedIds st n).length = n := by
  induction n with
  | zero => intro st; rfl
  | succ n ih => intro st; rw [issuedIds, List.length_cons, ih]

/-- Modelled from the spec: format of an attempt identifier generated
at intake (spec §3: attempt_id is globally unique and independent of
customer_id; the generation mechanism is unspecified, modelled as a
monotone per-system attempt counter rendered like `AT-00001`). -/
def formatAttemptId (n : ℕ) : String := "AT-" ++ String.mk (pad5 n)

theorem parse_formatAttemptId (n : ℕ) :
    parseCustomerId (formatAttemptId n) = n := by
  have hdrop :
      (("AT-" ++ String.mk (pad5 n)).data).drop 3 = pad5 n := rfl
  rw [parseCustomerId, formatAttemptId, hdrop, pad5, parseDigits,
    List.foldl_append]
  have hz := parseDigits_zeros (5 - (natDigitsStr n).length)
  rw [parseDigits] at hz
  rw [hz]
  have h := parseDigits_natDigitsStr n 0
  rw [parseDigits] at h
  rw [h]
  ring

theorem formatAttemptId_injective (a b : ℕ)
    (h : formatAttemptId a = formatAttemptId b) : a = b := by
  have := congrArg parseCustomerId h
  rwa [parse_formatAttemptId, parse_formatAttemptId] at this

/-- A stored Customer as the intake dedup sees it (spec §3/§4.1):
profile URL key, email, and the issued customer identifier. -/
structure Customer where
  profile_url : String
  email : String
  customer_id : String
  deriving DecidableEq, Repr

/-- The system state `Start` touches: the allocator's durable counter,
the attempt-id counter, and the known customers. -/
structure SystemState where
  alloc : AllocatorState
  attemptCounter : ℕ
  customers : List Customer
  deriving DecidableEq, Repr

/-- Modelled from the spec: the returning-user lookup at intake —
dedup key is the normalized profile URL, secondarily the email
(spec §4.1; URLs are taken as already normalized here). -/
def lookupCustomer (st : SystemState) (url email : String) :
    Option String :=
  (st.customers.find? fun c => c.profile_url == url || c.email == email).map
    fun c => c.customer_id

/-- Modelled from the spec: `Start(profileURL, email, …) → attemptID`
(spec §4.1) — look up or create the Customer (allocating a fresh
customer id through the Identifier Allocator only for a new customer),
and generate a fresh attempt id from the attempt counter. Returns the
new state, the attempt id, and the customer id. -/
def Start (st : SystemState) (url email : String) :
    SystemState × String × String :=
  match lookupCustomer st url email with
  | some cid =>
      ({ st with attemptCounter := st.attemptCounter + 1 },
       formatAttemptId (st.attemptCounter + 1), cid)
  | none =>
      ({ alloc := (allocNext st.alloc).1,
         attemptCounter := st.attemptCounter + 1,
         customers :=
           { profile_url := url, email := email,
             customer_id := (allocNext st.alloc).2 } :: st.customers },
       formatAttemptId (st.attemptCounter + 1), (allocNext st.alloc).2)

theorem Start_attemptCounter (st : SystemState) (u e : String) :
    (Start st u e).1.attemptCounter = st.attemptCounter + 1 := by
  unfold Start
  cases lookupCustomer st u e <;> rfl

theorem Start_attemptId (st : SystemState) (u e : String) :
    (Start st u e).2.1 = formatAttemptId (st.attemptCounter + 1) := by
  unfold Start
  cases lookupCustomer st u e <;> rfl

theorem Start_counter_mono (st : SystemState) (u e : String) :
    st.alloc.counter ≤ (Start st u e).1.alloc.counter := by
  unfold Start
  cases lookupCustomer st u e
  · exact Nat.le_succ _
  · exact le_rfl

/-- The attempt ids returned by a sequence of `Start` calls (one
`(url, email)` request per call). -/
def startAttemptIds (st : SystemState) : List (String × String) → List String
  | [] => []
  | r :: rs =>
      (Start st r.1 r.2).2.1 :: startAttemptIds (Start st r.1 r.2).1 rs

theorem mem_startAttemptIds (rs : List (String × String)) :
    ∀ (st : SystemState) (x : String), x ∈ startAttemptIds st rs →
      ∃ m : ℕ, st.attemptCounter < m ∧ m ≤ st.attemptCounter + rs.length ∧
        x = formatAttemptId m := by
  induction rs with
  | nil => intro st x hx; simp [startAttemptIds] at hx
  | cons r rs ih =>
    intro st x hx
    rw [startAttemptIds, List.mem_cons] at hx
    rcases hx with hx | hx
    · exact ⟨st.attemptCounter + 1, Nat.lt_succ_self _, by simp,
        by rw [hx, Start_attemptId]⟩
    · obtain ⟨m, hm1, hm2, hm3⟩ := ih (Start st r.1 r.2).1 x hx
      rw [Start_attemptCounter] at hm1 hm2
      exact ⟨m, by omega, by simp [List.length_cons]; omega, hm3⟩

theorem startAttemptIds_nodup (rs : List (String × String)) :
    ∀ st : SystemState, (startAttemptIds st rs).Nodup := by
  induction rs with
  | nil => intro st; simp [startAttemptIds]
  | cons r rs ih =>
    intro st
    rw [startAttemptIds, List.nodup_cons]
    refine ⟨?_, ih _⟩
    intro hmem
    obtain ⟨m, hm1, _, hm3⟩ := mem_startAttemptIds rs (Start st r.1 r.2).1 _
      hmem
    rw [Start_attemptCounter] at hm1
    rw [Start_attemptId] at hm3
    have := formatAttemptId_injective _ _ hm3
    omega

theorem startAttemptIds_length (rs : List (String × String)) :
    ∀ st : SystemState, (startAttemptIds st rs).length = rs.length := by
  induction rs with
  | nil => intro st; rfl
  | cons r rs ih =>
    intro st
    rw [startAttemptIds, List.length_cons, List.length_cons, ih]

/-- Claim C7: the Identifier Allocator's `Next()` issues strictly
increasing, never-reused identifiers: the durable counter only
increases, the `LM-xxxxx` formatting is collision-free, and any number
of linearized calls — including calls resumed from the persisted
counter after a restart — produce pairwise-distinct identifiers;
consequently every `Start` call increments the attempt counter without
ever decreasing the customer counter, the `AT-xxxxx` attempt-id
formatting is collision-free, and any number of `Start` calls produce
pairwise-distinct attempt ids. -/
theorem allocator_ids_unique :
    (∀ st : AllocatorState, (allocNext st).1.counter = st.counter + 1) ∧
      (∀ a b : ℕ, formatCustomerId a = formatCustomerId b → a = b) ∧
      (∀ (st : AllocatorState) (n : ℕ),
        (issuedIds st n).length = n ∧ (issuedIds st n).Nodup) ∧
      (∀ (st : SystemState) (u e : String),
        (Start st u e).1.attemptCounter = st.attemptCounter + 1 ∧
          (Start st u e).2.1 = formatAttemptId (st.attemptCounter + 1) ∧
          st.alloc.counter ≤ (Start st u e).1.alloc.counter) ∧
      (∀ a b : ℕ, formatAttemptId a = formatAttemptId b → a = b) ∧
      ∀ (st : SystemState) (reqs : List (String × String)),
        (startAttemptIds st reqs).length = reqs.length ∧
          (startAttemptIds st reqs).Nodup :=
  ⟨fun _ => rfl, formatCustomerId_injective,
   fun st n => ⟨issuedIds_length n st, issuedIds_nodup n st⟩,
   fun st u e => ⟨Start_attemptCounter st u e, Start_attemptId st u e,
     Start_counter_mono st u e⟩,
   formatAttemptId_injective,
   fun st reqs =>
     ⟨startAttemptIds_length reqs st, startAttemptIds_nodup reqs st⟩⟩

/-- A fresh system state for exercising `Start`. -/
def startDemoState : SystemState :=
  { alloc := ⟨0⟩, attemptCounter := 0, customers := [] }

/-- Three intake requests, the third reusing the first profile URL. -/
def startDemoReqs : List (String × String) :=
  [("https://site/in/jane-doe", "jane@x.com"),
   ("https://site/in/john-roe", "john@x.com"),
   ("https://site/in/jane-doe", "other@x.com")]

/-- Concrete instance of `allocator_ids_unique`: three `Next()` calls
from a fresh counter issue `LM-00001`, `LM-00002`, `LM-00003`, all
distinct; and three `Start` calls — the third a returning user —
produce the three distinct attempt ids `AT-00001`, `AT-00002`,
`AT-00003`. -/
theorem allocator_ids_unique_witness :
    (allocNext ⟨0⟩).1.counter = 1 ∧
      (issuedIds ⟨0⟩ 3).length = 3 ∧ (issuedIds ⟨0⟩ 3).Nodup ∧
      issuedIds ⟨0⟩ 3 = ["LM-00001", "LM-00002", "LM-00003"] ∧
      (startAttemptIds startDemoState startDemoReqs).length = 3 ∧
      (startAttemptIds startDemoState startDemoReqs).Nodup ∧
      startAttemptIds startDemoState startDemoReqs
        = ["AT-00001", "AT-00002", "AT-00003"] := by
  have hd : ∀ n : ℕ, 0 < n → n < 10 → Nat.digits 10 n = [n] := by
    intro n h1 h2
    rw [Nat.digits_def' (by norm_num : (1 : ℕ) < 10) h1,
      Nat.mod_eq_of_lt h2, Nat.div_eq_of_lt h2]
    simp
  have hlist : issuedIds ⟨0⟩ 3
      = [formatCustomerId 1, formatCustomerId 2, formatCustomerId 3] := rfl
  have hstartlist : startAttemptIds startDemoState startDemoReqs
      = [formatAttemptId 1, formatAttemptId 2, formatAttemptId 3] := rfl
  refine ⟨allocator_ids_unique.1 ⟨0⟩, (allocator_ids_unique.2.2.1 ⟨0⟩ 3).1,
    (allocator_ids_unique.2.2.1 ⟨0⟩ 3).2, ?_,
    (allocator_ids_unique.2.2.2.2.2 startDemoState startDemoReqs).1,
    (allocator_ids_unique.2.2.2.2.2 startDemoState startDemoReqs).2, ?_⟩
  · rw [hlist, formatCustomerId, formatCustomerId, formatCustomerId,
      pad5, pad5, pad5, natDigitsStr, natDigitsStr, natDigitsStr,
      hd 1 (by norm_num) (by norm_num), hd 2 (by norm_num) (by norm_num),
      hd 3 (by norm_num) (by norm_num)]
    rfl
  · rw [hstartlist, formatAttemptId, formatAttemptId, formatAttemptId,
      pad5, pad5, pad5, natDigitsStr, natDigitsStr, natDigitsStr,
      hd 1 (by norm_num) (by norm_num), hd 2 (by norm_num) (by norm_num),
      hd 3 (by norm_num) (by norm_num)]
    rfl

/-! ## Scrape Job Poller

Modelled from the spec: the backend Scrape Job Poller (spec §4.2) and
its cadence policy (spec §5): fixed base interval, exponential backoff
capped at a maximum interval on rate-limited/server-busy responses,
reset to the base interval on a successful poll, and a hard timeout on
total waiting after which the attempt fails with `ScrapeTimeoutError`.
The base/maximum interval constants follow the frontend cadence
constants (5000 ms / 30000 ms). -/

/-- Base polling interval in milliseconds. -/
def basePoll : ℕ := 5000

/-- Maximum backed-off polling interval in milliseconds. -/
def maxPoll : ℕ := 30000

/-- Modelled from the spec: the hard cap on total waiting before the
attempt fails with `ScrapeTimeoutError` (spec §4.2; the exact value is
a policy constant). -/
def hardTimeout : ℕ := 600000

/-- Provider status vocabulary for one poll of the scrape job. -/
inductive ProviderStatus : Type
  | running
  | rate_limited
  | succeeded
  | failed
  deriving DecidableEq, Repr

/-- Terminal outcome of the polling loop. -/
inductive PollOutcome : Type
  | success
  | scrapeFailed
  | scrapeTimeout
  deriving DecidableEq, Repr

/-- State of the backend polling loop: the delay before the next poll,
the total waiting accumulated so far, and the terminal outcome once
reached. -/
structure PollerState where
  delay : ℕ
  waited : ℕ
  outcome : Option PollOutcome
  deriving DecidableEq, Repr

/-- Initial polling state: base interval, nothing waited. -/
def pollerInit : PollerState :=
  { delay := basePoll, waited := 0, outcome := none }

/-- Modelled from the spec: one scheduled poll of the provider
(spec §4.2/§5). A terminal loop ignores further responses; provider
success/failure ends the loop; a running job waits one more window and
resets the delay to the base interval; a rate-limited/server-busy
response waits one more window and doubles the delay up to the cap,
without failing the job; in both waiting cases the loop times out with
`ScrapeTimeoutError` once total waiting exceeds the hard timeout. -/
def pollStep (st : PollerState) (r : ProviderStatus) : PollerState :=
  if st.outcome.isSome then st
  else
    match r with
    | .succeeded => { st with outcome := some .success }
    | .failed => { st with outcome := some .scrapeFailed }
    | .running =>
        if hardTimeout < st.waited + st.delay then
          { st with waited := st.waited + st.delay,
                    outcome := some .scrapeTimeout }
        else
          { delay := basePoll, waited := st.waited + st.delay,
            outcome := none }
    | .rate_limited =>
        if hardTimeout < st.waited + st.delay then
          { st with waited := st.waited + st.delay,
                    outcome := some .scrapeTimeout }
        else
          { delay := min (2 * st.delay) maxPoll,
            waited := st.waited + st.delay, outcome := none }

/-- Run the polling loop over a sequence of provider responses. -/
def runPoller (st : PollerState) (rs : List ProviderStatus) : PollerState :=
  rs.foldl pollStep st

/-- Modelled from the spec: how the workflow consumes the poller's
terminal outcome — success advances the attempt, provider failure and
timeout fail it with the corresponding captured error (spec §4.2, §7). -/
def applyPollOutcome (a : Attempt) (o : PollOutcome) : Attempt :=
  match o with
  | .success => { a with step := advance a.step .stepOk }
  | .scrapeFailed =>
      { a with step := advance a.step .stepError,
               error_message := some "ScrapeFailedError" }
  | .scrapeTimeout =>
      { a with step := advance a.step .stepError,
               error_message := some "ScrapeTimeoutError" }

/-- Claim C8: the scrape-job polling cadence: a rate-limited response
doubles the next delay up to the cap and is never itself a job failure;
a successful poll resets the delay to the base interval; waiting beyond
the hard timeout stops polling with `ScrapeTimeoutError`, which fails
the attempt; and on the scenario `[running, running, rate_limited,
running, succeeded]` backoff engages only at the rate-limited response,
resets on the next successful poll, and the loop ends in success. -/
theorem poller_cadence_policy :
    (∀ st : PollerState, st.outcome = none →
        st.waited + st.delay ≤ hardTimeout →
        pollStep st .rate_limited
            = { delay := min (2 * st.delay) maxPoll,
                waited := st.waited + st.delay, outcome := none }) ∧
      (∀ st : PollerState, st.outcome = none →
        st.waited + st.delay ≤ hardTimeout →
        pollStep st .running
            = { delay := basePoll, waited := st.waited + st.delay,
                outcome := none }) ∧
      (∀ st : PollerState, st.outcome = none →
        hardTimeout < st.waited + st.delay →
        (pollStep st .running).outcome = some .scrapeTimeout ∧
          (pollStep st .rate_limited).outcome = some .scrapeTimeout) ∧
      (∀ (st : PollerState) (r : ProviderStatus),
        basePoll ≤ st.delay → st.delay ≤ maxPoll →
        basePoll ≤ (pollStep st r).delay ∧ (pollStep st r).delay ≤ maxPoll) ∧
      (∀ (st : PollerState) (r : ProviderStatus), st.outcome.isSome →
        pollStep st r = st) ∧
      (∀ a : Attempt, a.step = .scraping →
        (applyPollOutcome a .scrapeTimeout).step = .failed ∧
          (applyPollOutcome a .scrapeTimeout).error_message
            = some "ScrapeTimeoutError") ∧
      runPoller pollerInit
          [.running, .running, .rate_limited, .running, .succeeded]
        = { delay := basePoll, waited := 25000, outcome := some .success } := by
  refine ⟨?_, ?_, ?_, ?_, ?_, ?_, by decide⟩
  · intro st h1 h2
    rw [pollStep, if_neg (by simp [h1]), if_neg (by omega)]
  · intro st h1 h2
    rw [pollStep, if_neg (by simp [h1]), if_neg (by omega)]
  · intro st h1 h2
    constructor <;>
      rw [pollStep, if_neg (by simp [h1]), if_pos (by omega)]
  · intro st r h1 h2
    by_cases ho : st.outcome.isSome
    · rw [pollStep.eq_def, if_pos ho]
      exact ⟨h1, h2⟩
    · have h1' : 5000 ≤ st.delay := h1
      have h2' : st.delay ≤ 30000 := h2
      cases r
      · rw [pollStep, if_neg ho]
        split
        · exact ⟨h1, h2⟩
        · exact ⟨le_rfl, by show basePoll ≤ maxPoll; decide⟩
      · rw [pollStep, if_neg ho]
        split
        · exact ⟨h1, h2⟩
        · refine ⟨?_, min_le_right _ _⟩
          show basePoll ≤ min (2 * st.delay) maxPoll
          rw [Nat.le_min]
          exact ⟨by show 5000 ≤ 2 * st.delay; omega,
            by show (5000 : ℕ) ≤ 30000; omega⟩
      · rw [pollStep, if_neg ho]
        exact ⟨h1, h2⟩
      · rw [pollStep, if_neg ho]
        exact ⟨h1, h2⟩
  · intro st r h
    rw [pollStep.eq_def, if_pos h]
  · intro a ha
    rw [applyPollOutcome]
    simp [ha, advance, Step.isTerminal]

/-- Concrete instance of `poller_cadence_policy`: from the initial
state, a rate-limited response doubles the delay to 10000 ms without
failing, and a hard-timeout overrun produces `ScrapeTimeoutError`. -/
theorem poller_cadence_policy_witness :
    pollStep pollerInit .rate_limited
        = { delay := 10000, waited := 5000, outcome := none } ∧
      (pollStep { delay := 30000, waited := 599999, outcome := none }
          .running).outcome = some .scrapeTimeout :=
  ⟨by
    have h := poller_cadence_policy.1 pollerInit rfl (by decide)
    rw [h]
    rfl,
   (poller_cadence_policy.2.2.1
      { delay := 30000, waited := 599999, outcome := none } rfl
      (by decide)).1⟩

/-! ## Client-side status poller

Embedded from `frontend/src/app/(flow)/loader/page.tsx`: the loader
page's constants (`TERMINAL_STATES`, `POLL_INTERVAL_MS`,
`MAX_BACKOFF_MS`) and the behaviour of one run of the `poll` closure —
the `pollStatus` fetch (429/503 and fetch errors back off, success
resets the backoff), terminal-state detection, failed/complete
handling, and the `setTimeout` rescheduling guarded by the *stale*
`isTerminal` closure value. -/

/-- `TERMINAL_STATES` of `loader/page.tsx` line 18. -/
def TERMINAL_STATES : List String :=
  ["complete", "completed", "failed", "invalid_url", "not_found"]

/-- `POLL_INTERVAL_MS` of `loader/page.tsx` line 19. -/
def POLL_INTERVAL_MS : ℕ := 5000

/-- `MAX_BACKOFF_MS` of `loader/page.tsx` line 20. -/
def MAX_BACKOFF_MS : ℕ := 30000

/-- JavaScript `x || y` on numbers where `0` is falsy. -/
def jsOr (x y : ℕ) : ℕ := if x = 0 then y else x

/-- JavaScript `a || b` on possibly-missing strings, where `undefined`
and the empty string are falsy. -/
def jsOrStr (a b : Option String) : Option String :=
  match a with
  | some s => if s = "" then b else some s
  | none => b

/-- Body of a status response (`/api/status/...`), fields the loader
reads. -/
structure StatusData where
  current_step : Option String
  scrape_status : Option String
  payment_status : Option String
  progress_percent : ℕ
  error_message : Option String
  customer_id : Option String
  deriving DecidableEq, Repr

/-- Result of one `fetch` in `pollStatus`: HTTP 429/503, any other
failure (non-ok response or thrown error), or a parsed status body. -/
inductive FetchResult : Type
  | rateLimited
  | httpError
  | ok (d : StatusData)
  deriving DecidableEq, Repr

/-- Loader-page state touched by one run of `poll`: the `isTerminal`
React state, the `backoffRef` value, and the `error` state. -/
structure LoaderState where
  isTerminal : Bool
  backoff : ℕ
  error : Option String
  deriving DecidableEq, Repr

/-- Outcome of one run of the `poll` closure: the updated state and the
delay of the `setTimeout(poll, …)` it scheduled, if any. -/
structure PollRun where
  state : LoaderState
  nextDelay : Option ℕ
  deriving DecidableEq, Repr

/-- One run of the `poll` closure of `loader/page.tsx` (lines 95–152)
over the loader state and the result of its `pollStatus` fetch.
A run that starts terminal returns immediately. A rate-limited or
failed fetch updates `backoffRef` to
`min(backoff * 2 || POLL_INTERVAL_MS, MAX_BACKOFF_MS)` and falls
through to rescheduling. A successful fetch resets the backoff, marks
the loop terminal when `current_step || scrape_status` is in
`TERMINAL_STATES`, returns without rescheduling on failed responses
(setting the error to `error_message || "Scrape failed"`, where JS
treats a missing or empty message as falsy) or complete/completed
responses, and otherwise falls through to the
rescheduling guard — which reads the stale closure value of
`isTerminal`, not the freshly set one. -/
def loaderPoll (st : LoaderState) (f : FetchResult) : PollRun :=
  if st.isTerminal then { state := st, nextDelay := none }
  else
    match f with
    | .rateLimited | .httpError =>
        let b := min (jsOr (2 * st.backoff) POLL_INTERVAL_MS) MAX_BACKOFF_MS
        { state := { st with backoff := b },
          nextDelay := some (jsOr b POLL_INTERVAL_MS) }
    | .ok d =>
        let st0 := { st with backoff := 0 }
        let term0 :=
          match jsOrStr d.current_step d.scrape_status with
          | some s => TERMINAL_STATES.contains s
          | none => false
        let st1 := if term0 then { st0 with isTerminal := true } else st0
        if d.current_step = some "failed" ∨ d.scrape_status = some "failed"
        then
          { state :=
              { st1 with
                isTerminal := true
                error := jsOrStr d.error_message (some "Scrape failed") },
            nextDelay := none }
        else if d.current_step = some "complete" ∨
            d.scrape_status = some "completed" then
          { state := { st1 with isTerminal := true }, nextDelay := none }
        else
          { state := st1,
            nextDelay := some (jsOr st1.backoff POLL_INTERVAL_MS) }

/-- The loader's backoff ref is either 0 (reset) or a backed-off delay
within `[POLL_INTERVAL_MS, MAX_BACKOFF_MS]`. -/
def BackoffInv (b : ℕ) : Prop :=
  b = 0 ∨ (POLL_INTERVAL_MS ≤ b ∧ b ≤ MAX_BACKOFF_MS)

theorem backoff_update_bounds (b0 : ℕ) (hb : BackoffInv b0) :
    POLL_INTERVAL_MS
        ≤ min (jsOr (2 * b0) POLL_INTERVAL_MS) MAX_BACKOFF_MS ∧
      min (jsOr (2 * b0) POLL_INTERVAL_MS) MAX_BACKOFF_MS
        ≤ MAX_BACKOFF_MS := by
  have h5 : POLL_INTERVAL_MS = 5000 := rfl
  have h30 : MAX_BACKOFF_MS = 30000 := rfl
  rw [jsOr]
  rcases hb with hb | ⟨hb1, hb2⟩ <;> rw [h5, h30] at * <;> split <;> omega

/-! ## Error propagation and status query

Modelled from the spec: non-transient errors set the Attempt's
`error_message` and transition it to `failed` (spec §7);
`GetStatus(attempt_id) → {current_step, progress_percent,
error_message?}` (spec §6) exposes that terminal state to polling
clients. -/

/-- Modelled from the spec: failing an Attempt on an unrecoverable
error — capture the message and transition to `failed` (spec §4.1/§7). -/
def failAttempt (a : Attempt) (msg : String) : Attempt :=
  { a with step := advance a.step .stepError, error_message := some msg }

/-- Modelled from the spec: the exposed status query —
`GetStatus(attempt_id) → {current_step, progress_percent,
error_message?}` (spec §6). -/
def getStatus (attempts : List Attempt) (aid : String) :
    Option (Step × ℕ × Option String) :=
  (attempts.find? fun a => a.attempt_id == aid).map fun a =>
    (a.step, a.progress_percent, a.error_message)

theorem advance_stepError_eq_failed :
    ∀ s : Step, s.isTerminal = false → advance s .stepError = .failed := by
  decide

/-- Claim C9: every Attempt ends observably — a non-transient error sets
`error_message` and moves the Attempt to `failed`, after which
`GetStatus` returns the `failed` step together with that message;
a transient rate-limited poll (within the timeout budget) is retried
internally without failing the loop; and the client loader surfaces a
`failed` status response as its error state, using the JS-falsy
fallback `error_message || "Scrape failed"`. -/
theorem failed_attempt_observable :
    (∀ (a : Attempt) (msg : String), a.step.isTerminal = false →
        (failAttempt a msg).step = .failed ∧
          (failAttempt a msg).error_message = some msg) ∧
      (∀ (a : Attempt) (msg : String) (rest : List Attempt),
        a.step.isTerminal = false →
        getStatus (failAttempt a msg :: rest) a.attempt_id
          = some (.failed, a.progress_percent, some msg)) ∧
      (∀ st : PollerState, st.outcome = none →
        st.waited + st.delay ≤ hardTimeout →
        (pollStep st .rate_limited).outcome = none) ∧
      ∀ (st : LoaderState) (d : StatusData), st.isTerminal = false →
        d.current_step = some "failed" →
        (loaderPoll st (.ok d)).state.error
            = jsOrStr d.error_message (some "Scrape failed") ∧
          (loaderPoll st (.ok d)).state.isTerminal = true := by
  refine ⟨?_, ?_, ?_, ?_⟩
  · intro a msg h
    exact ⟨advance_stepError_eq_failed a.step h, rfl⟩
  · intro a msg rest h
    rw [getStatus, List.find?_cons_of_pos _ (by simp [failAttempt])]
    simp [failAttempt, advance_stepError_eq_failed a.step h]
  · intro st h1 h2
    rw [pollStep, if_neg (by simp [h1]), if_neg (by omega)]
  · intro st d hst hd
    rw [loaderPoll.eq_def, if_neg (by simp [hst])]
    dsimp only
    rw [if_pos (Or.inl hd)]
    exact ⟨rfl, rfl⟩

/-- Concrete instance of `failed_attempt_observable`: a scraping attempt
failed with a captured message is visible as such through `GetStatus`. -/
theorem failed_attempt_observable_witness :
    getStatus
        [failAttempt
          { attempt_id := "A-3", customer_id := "LM-00002",
            step := .scraping, payment_status := some .succeeded,
            progress_percent := 50, error_message := none }
          "ScrapeFailedError"]
        "A-3"
      = some (.failed, 50, some "ScrapeFailedError") :=
  failed_attempt_observable.2.1
    { attempt_id := "A-3", customer_id := "LM-00002", step := .scraping,
      payment_status := some .succeeded, progress_percent := 50,
      error_message := none }
    "ScrapeFailedError" [] rfl

/-- Claim C10, counterexample: a status response reporting the terminal
state `invalid_url` does not return through the failed/complete early
exits, so the poll body still schedules one further status request
(at the base interval) even though the state is in `TERMINAL_STATES`. -/
theorem loader_schedules_after_invalid_url :
    TERMINAL_STATES.contains "invalid_url" = true ∧
      loaderPoll { isTerminal := false, backoff := 0, error := none }
          (.ok { current_step := some "invalid_url", scrape_status := none,
                 payment_status := none, progress_percent := 0,
                 error_message := none, customer_id := none })
        = { state := { isTerminal := true, backoff := 0, error := none },
            nextDelay := some POLL_INTERVAL_MS } := by
  constructor
  · rfl
  · rfl

/-- Claim C10 (amended): a run of the loader's `poll` that starts with
`isTerminal` set performs no fetch and schedules nothing; a response
reporting `failed`, `complete` or `completed` ends the loop without
scheduling a further request (responses reporting `invalid_url` or
`not_found` mark the loop terminal but still schedule one further
request, per the counterexample); and under the backoff invariant every
scheduled delay lies between `POLL_INTERVAL_MS` (5000 ms) and
`MAX_BACKOFF_MS` (30000 ms), for every sequence of successful,
rate-limited and failed fetches. -/
theorem loader_poll_terminal_and_bounds :
    (∀ (st : LoaderState) (d : StatusData), st.isTerminal = false →
        (d.current_step = some "failed" ∨ d.scrape_status = some "failed" ∨
          d.current_step = some "complete" ∨
          d.scrape_status = some "completed") →
        (loaderPoll st (.ok d)).nextDelay = none ∧
          (loaderPoll st (.ok d)).state.isTerminal = true) ∧
      (∀ (st : LoaderState) (f : FetchResult), st.isTerminal = true →
        loaderPoll st f = { state := st, nextDelay := none }) ∧
      ∀ (st : LoaderState) (f : FetchResult), BackoffInv st.backoff →
        BackoffInv (loaderPoll st f).state.backoff ∧
          ∀ dly, (loaderPoll st f).nextDelay = some dly →
            POLL_INTERVAL_MS ≤ dly ∧ dly ≤ MAX_BACKOFF_MS := by
  refine ⟨?_, ?_, ?_⟩
  · intro st d hst hd
    rw [loaderPoll.eq_def, if_neg (by simp [hst])]
    dsimp only
    split_ifs <;> first | exact ⟨rfl, rfl⟩ | tauto
  · intro st f hst
    rw [loaderPoll.eq_def, if_pos (by simp [hst])]
  · intro st f hb
    have h5 : POLL_INTERVAL_MS = 5000 := rfl
    by_cases hst : st.isTerminal
    · rw [loaderPoll.eq_def, if_pos (by simp [hst])]
      exact ⟨hb, fun dly h => by cases h⟩
    · cases f with
      | rateLimited =>
        rw [loaderPoll.eq_def, if_neg (by simp [hst])]
        dsimp only
        have hbb := backoff_update_bounds st.backoff hb
        refine ⟨Or.inr hbb, ?_⟩
        intro dly h
        have hjs : jsOr (min (jsOr (2 * st.backoff) POLL_INTERVAL_MS)
            MAX_BACKOFF_MS) POLL_INTERVAL_MS
              = min (jsOr (2 * st.backoff) POLL_INTERVAL_MS)
                  MAX_BACKOFF_MS := by
          have hbb1 := hbb.1
          rw [h5] at hbb1
          rw [jsOr, if_neg (by omega)]
        rw [hjs] at h
        cases h
        exact hbb
      | httpError =>
        rw [loaderPoll.eq_def, if_neg (by simp [hst])]
        dsimp only
        have hbb := backoff_update_bounds st.backoff hb
        refine ⟨Or.inr hbb, ?_⟩
        intro dly h
        have hjs : jsOr (min (jsOr (2 * st.backoff) POLL_INTERVAL_MS)
            MAX_BACKOFF_MS) POLL_INTERVAL_MS
              = min (jsOr (2 * st.backoff) POLL_INTERVAL_MS)
                  MAX_BACKOFF_MS := by
          have hbb1 := hbb.1
          rw [h5] at hbb1
          rw [jsOr, if_neg (by omega)]
        rw [hjs] at h
        cases h
        exact hbb
      | ok d =>
        rw [loaderPoll.eq_def, if_neg (by simp [hst])]
        dsimp only
        split_ifs <;> refine ⟨Or.inl rfl, ?_⟩ <;> intro dly h <;>
          first
          | (cases h;
             exact ⟨by show POLL_INTERVAL_MS ≤ jsOr 0 POLL_INTERVAL_MS; decide,
               by show jsOr 0 POLL_INTERVAL_MS ≤ MAX_BACKOFF_MS; decide⟩)
          | cases h

/-- Concrete instance of `loader_poll_terminal_and_bounds`: a
`complete` response ends the loop without scheduling, and a rate-limited
fetch from a fresh state schedules a 5000 ms poll. -/
theorem loader_poll_terminal_and_bounds_witness :
    (loaderPoll { isTerminal := false, backoff := 0, error := none }
        (.ok { current_step := some "complete", scrape_status := none,
               payment_status := none, progress_percent := 100,
               error_message := none,
               customer_id := some "LM-00001" })).nextDelay = none ∧
      BackoffInv
        (loaderPoll { isTerminal := false, backoff := 0, error := none }
          .rateLimited).state.backoff :=
  ⟨(loader_poll_terminal_and_bounds.1
      { isTerminal := false, backoff := 0, error := none }
      { current_step := some "complete", scrape_status := none,
        payment_status := none, progress_percent := 100,
        error_message := none, customer_id := some "LM-00001" }
      rfl (Or.inr (Or.inr (Or.inl rfl)))).1,
   (loader_poll_terminal_and_bounds.2.2
      { isTerminal := false, backoff := 0, error := none }
      .rateLimited (Or.inl rfl)).1⟩

end LinkifyMe
